import Mathlib

/-!
Verification of the repochief-cli credential and session-management
subsystem.  The definitions below are a shallow embedding of the
JavaScript sources:

* src/utils/workspace.js  — credential vault (keytar-first storage with an
  AES-256-GCM encrypted-file fallback and a legacy-token migration path);
* src/utils/device.js     — legacy device identity and token storage;
* src/utils/oauth.js      — device-authorization polling and token refresh;
* src/utils/api-client.js — the authenticated HTTP client (bearer
  injection, single 401-retry, refresh handling).

External facilities (node crypto primitives, utf-8 decoding, the OS
keychain) are modelled abstractly: cryptographic primitives are fields of
a CryptoExt structure together with their contracts; keychain
availability is a three-valued mode (available, unavailable, failing).
Byte strings are lists of naturals; the base64 transport encoding of the
secrets file is a bijection and is elided, so stored blobs are the raw
byte lists.  JavaScript truthiness of strings (null and the empty string
are falsy) is modelled explicitly wherever the source branches on it.
-/

/-- External cryptographic and encoding facilities used by workspace.js.
The proof fields state the contracts of node's aes-256-gcm
implementation: the auth tag is 16 bytes, and decryption with the key,
iv and tag produced by encryption recovers the plaintext. -/
structure CryptoExt where
  hostname : String
  platform : String
  arch : String
  homedir : String
  pbkdf2 : String → List Nat → List Nat
  sha256 : String → List Nat
  encryptGCM : List Nat → List Nat → String → List Nat × List Nat
  decryptGCM : List Nat → List Nat → List Nat → List Nat → Option String
  decodeUtf8 : List Nat → String
  tagLength : ∀ k iv m, (encryptGCM k iv m).2.length = 16
  decrypt_encrypt :
    ∀ k iv m, decryptGCM k iv (encryptGCM k iv m).2 (encryptGCM k iv m).1 = some m

/-- Availability of the OS keychain (keytar): loaded and working,
not loadable at all, or loaded but throwing on use. -/
inductive KeytarMode where
  | ok
  | unavailable
  | failing
deriving DecidableEq, Repr

/-- Association-list lookup, modelling JS object property access. -/
def lookupA {α : Type} : List (String × α) → String → Option α
  | [], _ => none
  | (k, v) :: rest, key => if k == key then some v else lookupA rest key

/-- Association-list update, modelling JS object property assignment. -/
def upsertA {α : Type} : List (String × α) → String → α → List (String × α)
  | [], key, val => [(key, val)]
  | (k, v) :: rest, key, val =>
      if k == key then (key, val) :: rest else (k, v) :: upsertA rest key val

namespace Workspace

/-- Error raised by decryptToken: either the blob is shorter than
SALT_LENGTH + IV_LENGTH + TAG_LENGTH (the source throws
Error with message Invalid encrypted data), or GCM authentication
fails in decipher.final(). -/
inductive DecryptError where
  | invalidEncryptedData
  | authFailure
deriving DecidableEq, Repr

/-- workspace.js machineId inside getEncryptionKey:
hostname-platform-arch-homedir. -/
def machineId (e : CryptoExt) : String :=
  e.hostname ++ "-" ++ e.platform ++ "-" ++ e.arch ++ "-" ++ e.homedir

/-- workspace.js getEncryptionKey: PBKDF2 over the machine id with the
fixed application salt sha256(repochief-cli-token-encryption).  Note the
per-blob random salt is not an input. -/
def getEncryptionKey (e : CryptoExt) : List Nat :=
  e.pbkdf2 (machineId e) (e.sha256 "repochief-cli-token-encryption")

/-- workspace.js encryptToken: fresh salt (64 bytes) and iv (16 bytes)
are supplied by the caller (crypto.randomBytes in the source); the
stored value is salt ++ iv ++ authTag ++ ciphertext. -/
def encryptToken (e : CryptoExt) (salt iv : List Nat) (token : String) : List Nat :=
  let key := getEncryptionKey e
  let enc := e.encryptGCM key iv token
  salt ++ iv ++ enc.2 ++ enc.1

/-- workspace.js decryptToken: rejects blobs shorter than
SALT_LENGTH + IV_LENGTH + TAG_LENGTH, then slices
salt = data[0..64), iv = data[64..80), tag = data[80..96),
ciphertext = data[96..) and decrypts under the machine-derived key. -/
def decryptToken (e : CryptoExt) (data : List Nat) : Except DecryptError String :=
  if data.length < 64 + 16 + 16 then
    .error .invalidEncryptedData
  else
    let iv := (data.drop 64).take 16
    let tag := (data.drop 80).take 16
    let encrypted := data.drop 96
    let key := getEncryptionKey e
    match e.decryptGCM key iv tag encrypted with
    | some s => .ok s
    | none => .error .authFailure

/-- Local persisted state of workspace.js: the OS keychain entries for
the repochief service, and the fallback secrets file .tokens mapping
workspace id to the stored blob. -/
structure VaultState where
  keychain : List (String × String)
  tokens : List (String × List Nat)
deriving DecidableEq, Repr

/-- workspace.js storeTokenFallback: encrypt and write into the
.tokens map (the whole file is rewritten with mode 0600). -/
def storeTokenFallback (e : CryptoExt) (salt iv : List Nat)
    (st : VaultState) (workspaceId token : String) : VaultState :=
  { st with tokens := upsertA st.tokens workspaceId (encryptToken e salt iv token) }

/-- JS String.prototype.startsWith, on the character sequence. -/
def jsStartsWith (s p : String) : Bool :=
  p.data.isPrefixOf s.data

/-- JS String.prototype.includes for a single character. -/
def jsIncludes (s : String) (c : Char) : Bool :=
  s.data.contains c

/-- The legacy-token test in getTokenFallback:
decoded and (decoded.startsWith sbp_ or decoded.includes a dot). -/
def legacyTokenShape (e : CryptoExt) (blob : List Nat) : Bool :=
  let decoded := e.decodeUtf8 blob
  !(decoded == "") && (jsStartsWith decoded "sbp_" || jsIncludes decoded '.')

/-- workspace.js getTokenFallback.  The body is wrapped in a catch-all
try that returns null, so the re-thrown decryption error never escapes:
a failed decryption whose blob does not look like a legacy token yields
none.  A successful legacy probe re-saves under the current scheme
(the salt and iv arguments are the fresh randomness for that write). -/
def getTokenFallback (e : CryptoExt) (salt iv : List Nat)
    (st : VaultState) (workspaceId : String) : Option String × VaultState :=
  match lookupA st.tokens workspaceId with
  | none => (none, st)
  | some blob =>
    if blob.isEmpty then (none, st)
    else
      match decryptToken e blob with
      | .ok t => (some t, st)
      | .error _ =>
        let decoded := e.decodeUtf8 blob
        if legacyTokenShape e blob then
          (some decoded, storeTokenFallback e salt iv st workspaceId decoded)
        else (none, st)

/-- workspace.js storeToken: keytar.setPassword when the keychain is
available; on load failure or a throwing keychain, fall back to the
encrypted file. -/
def storeToken (mode : KeytarMode) (e : CryptoExt) (salt iv : List Nat)
    (st : VaultState) (workspaceId token : String) : VaultState :=
  match mode with
  | .ok => { st with keychain := upsertA st.keychain workspaceId token }
  | .unavailable => storeTokenFallback e salt iv st workspaceId token
  | .failing => storeTokenFallback e salt iv st workspaceId token

/-- workspace.js getToken: keytar.getPassword first; a falsy result
(null or the empty string) falls through to the fallback store. -/
def getToken (mode : KeytarMode) (e : CryptoExt) (salt iv : List Nat)
    (st : VaultState) (workspaceId : String) : Option String × VaultState :=
  match mode with
  | .ok =>
    match lookupA st.keychain workspaceId with
    | some t =>
        if t == "" then getTokenFallback e salt iv st workspaceId
        else (some t, st)
    | none => getTokenFallback e salt iv st workspaceId
  | .unavailable => getTokenFallback e salt iv st workspaceId
  | .failing => getTokenFallback e salt iv st workspaceId

end Workspace

namespace Device

/-- Local persisted state of device.js: keychain entries for the
repochief-cli service and the single-record fallback file .token
holding a JSON object with fields deviceId and token. -/
structure DeviceState where
  keychain : List (String × String)
  tokenFile : Option (String × String)
deriving DecidableEq, Repr

/-- The file-storage read path of device.js getToken: parse .token and
return the token when the stored deviceId matches. -/
def getTokenFile (st : DeviceState) (deviceId : String) : Option String :=
  match st.tokenFile with
  | some (d, t) => if d == deviceId then some t else none
  | none => none

/-- device.js getToken: keytar first, with a falsy (null or empty)
result falling through to the .token file. -/
def getToken (mode : KeytarMode) (st : DeviceState) (deviceId : String) : Option String :=
  match mode with
  | .ok =>
    match lookupA st.keychain deviceId with
    | some t => if t == "" then getTokenFile st deviceId else some t
    | none => getTokenFile st deviceId
  | .unavailable => getTokenFile st deviceId
  | .failing => getTokenFile st deviceId

/-- device.js setToken: keytar.setPassword when available; otherwise the
fallback writes JSON.stringify of the record with the deviceId and the
token itself to the .token file (mode 0600). -/
def setToken (mode : KeytarMode) (st : DeviceState) (deviceId token : String) : DeviceState :=
  match mode with
  | .ok => { st with keychain := upsertA st.keychain deviceId token }
  | .unavailable => { st with tokenFile := some (deviceId, token) }
  | .failing => { st with tokenFile := some (deviceId, token) }

/-- The export list of device.js (module.exports).  Note there is no
storeToken entry: the write operation is exported as setToken. -/
def moduleExports : List String :=
  ["getDeviceId", "getDeviceInfo", "setToken", "getToken", "removeToken", "clearDevice"]

end Device

/-- api-client.js line 2 destructures storeToken from require of the
device module.  device.js does not export that name, so the binding is
undefined: modelled as none. -/
def importedStoreToken : Option Unit :=
  if Device.moduleExports.contains "storeToken" then some () else none

/-- Body of a successful POST /auth/refresh reply (oauth.js
refreshAccessToken): refresh_token and token_type are optional in the
wire format. -/
structure RefreshResponse where
  access_token : String
  refresh_token : Option String
  token_type : Option String
  expires_in : Nat
deriving DecidableEq, Repr

/-- Normalized result of oauth.js refreshAccessToken. -/
structure OauthTokens where
  access_token : String
  refresh_token : String
  token_type : String
  expires_in : Nat
deriving DecidableEq, Repr

/-- oauth.js refreshAccessToken: posts the refresh grant; on success the
reply is normalized (a falsy refresh_token keeps the one that was sent,
a falsy token_type becomes Bearer); a 401 reply raises the
refresh-token-expired error, any other failure is wrapped. -/
def refreshAccessToken (refreshToken : String)
    (resp : Except Nat RefreshResponse) : Except String OauthTokens :=
  match resp with
  | .ok r =>
    .ok { access_token := r.access_token
        , refresh_token :=
            match r.refresh_token with
            | some s => if s == "" then refreshToken else s
            | none => refreshToken
        , token_type :=
            match r.token_type with
            | some s => if s == "" then "Bearer" else s
            | none => "Bearer"
        , expires_in := r.expires_in }
  | .error 401 => .error "Refresh token expired. Please login again."
  | .error _ => .error "Failed to refresh token"

/-- Errors of api-client.js handleTokenRefresh: the two explicit throws,
a failing exchange, and the TypeError raised by calling the undefined
storeToken import when the server rotates the refresh token. -/
inductive RefreshError where
  | notAuthenticated
  | noRefreshToken
  | refreshFailed (msg : String)
  | storeTokenNotAFunction
deriving DecidableEq, Repr

/-- Successful result of handleTokenRefresh: the access token, the
in-memory cache expiry that was installed, and the device store as left
on disk. -/
structure RefreshSuccess where
  accessToken : String
  accessTokenExpiry : Int
  deviceState : Device.DeviceState
deriving DecidableEq, Repr

/-- api-client.js handleTokenRefresh.  The second component counts the
refresh-exchange requests issued (the calls to refreshAccessToken): the
method has no single-flight guard, so every invocation that reaches the
exchange step issues its own request. -/
def handleTokenRefresh (mode : KeytarMode) (deviceId : Option String)
    (st : Device.DeviceState) (resp : Except Nat RefreshResponse) (now : Int) :
    Except RefreshError RefreshSuccess × Nat :=
  match deviceId with
  | none => (.error .notAuthenticated, 0)
  | some did =>
    match Device.getToken mode st did with
    | none => (.error .noRefreshToken, 0)
    | some refreshToken =>
      if refreshToken == "" then (.error .noRefreshToken, 0)
      else
        match refreshAccessToken refreshToken resp with
        | .error m => (.error (.refreshFailed m), 1)
        | .ok tokens =>
          if !(tokens.refresh_token == "") && !(tokens.refresh_token == refreshToken) then
            match importedStoreToken with
            | none => (.error .storeTokenNotAFunction, 1)
            | some _ =>
              (.ok { accessToken := tokens.access_token
                   , accessTokenExpiry := now + tokens.expires_in * 1000
                   , deviceState := Device.setToken mode st did tokens.refresh_token }, 1)
          else
            (.ok { accessToken := tokens.access_token
                 , accessTokenExpiry := now + tokens.expires_in * 1000
                 , deviceState := st }, 1)

/-- JavaScript truthiness of a possibly absent string: null and the
empty string are falsy. -/
def strTruthy : Option String → Bool
  | none => false
  | some s => !(s == "")

/-- JavaScript comparison this.accessTokenExpiry greater than Date.now()
where the expiry may still be undefined (undefined compares false). -/
def expiryValid : Option Int → Int → Bool
  | none, _ => false
  | some e, now => now < e

/-- In-memory per-instance state of APIClient: the constructor-supplied
token and the cached access token with its absolute expiry. -/
structure ClientCache where
  token : Option String
  accessToken : Option String
  accessTokenExpiry : Option Int
deriving DecidableEq, Repr

/-- api-client.js getAuthToken: the constructor token when truthy; null
without a device id; the cached access token when truthy and not yet
expired (no margin); otherwise the refresh token read from the device
store.  No exchange is performed on any path. -/
def getAuthToken (c : ClientCache) (mode : KeytarMode) (deviceId : Option String)
    (st : Device.DeviceState) (now : Int) : Option String :=
  if strTruthy c.token then c.token
  else
    match deviceId with
    | none => none
    | some did =>
      if strTruthy c.accessToken && expiryValid c.accessTokenExpiry now then c.accessToken
      else Device.getToken mode st did

/-- One transport-level response to an HTTP request: success, an HTTP
error status, or a network error (timeout, DNS) with no response. -/
inductive HttpResp where
  | ok (data : String)
  | err (status : Nat)
  | netErr (code : String)
deriving DecidableEq, Repr

/-- error.response?.status of axios: present only for HTTP errors. -/
def respStatus : HttpResp → Option Nat
  | .ok _ => none
  | .err s => some s
  | .netErr _ => none

/-- Outcome of one logical request through the api-client.js response
interceptor: resolved data, the authentication-expired error (message
Authentication expired. Please login again., code UNAUTHORIZED), or the
promise rejected with the original error object. -/
inductive ReqOutcome where
  | ok (data : String)
  | authExpired
  | rawErr (e : HttpResp)
deriving DecidableEq, Repr

/-- The api-client.js response interceptor applied to one logical
request, with the transport scripted as the list of responses to
successive attempts; refreshOk abstracts whether handleTokenRefresh
resolves.  A 401 on a not-yet-retried request sets the retry flag,
refreshes and replays once; a failing refresh yields the
authentication-expired error; because the replay promise is returned
without await, a failure of the replay (including a second 401, for
which the retry flag is now set) rejects with that response's original
error.  Errors other than 401 are rejected immediately: the client has
no transient-failure retry.  The second component counts the attempts
(requests issued). -/
def runRequest (refreshOk : Bool) (script : List HttpResp) : ReqOutcome × Nat :=
  match script with
  | [] => (.rawErr (.netErr "NO_RESPONSE"), 0)
  | first :: rest =>
    match first with
    | .ok d => (.ok d, 1)
    | e =>
      if respStatus e = some 401 then
        if refreshOk then
          match rest with
          | [] => (.rawErr (.netErr "NO_RESPONSE"), 1)
          | second :: _ =>
            match second with
            | .ok d => (.ok d, 2)
            | e2 => (.rawErr e2, 2)
        else (.authExpired, 1)
      else (.rawErr e, 1)

/-- One reply to a device-authorization poll request (oauth.js
pollForToken): the token payload, a 400 with an OAuth error code, or a
network or server failure. -/
inductive PollResp where
  | success (tok : String)
  | err400 (code : String)
  | netError
deriving DecidableEq, Repr

/-- Terminal outcome of polling. -/
inductive PollOutcome where
  | authorized (tok : String)
  | denied
  | expiredServer
  | expiredLocal
  | protocolError (code : String)
  | pending
deriving DecidableEq, Repr

/-- oauth.js pollForToken, driven by the scripted replies.  t is the
current wall-clock time, d the delay of the already-scheduled next poll
(the first poll is scheduled at the base interval).  Each poll first
checks the hard deadline.  authorization_pending reschedules at
pollInterval — the local constant, not the delay last used; slow_down
reschedules at pollInterval times 2 without updating any state;
network or server failure reschedules at min of pollInterval times 2 and
30000.  The first component is the list of delays at which polls were
scheduled. -/
def pollSteps (pollInterval expiresAt : Nat) :
    List PollResp → Nat → Nat → List Nat × PollOutcome
  | script, t, d =>
    if expiresAt < t + d then ([d], .expiredLocal)
    else
      match script with
      | [] => ([d], .pending)
      | r :: rest =>
        match r with
        | .success tok => ([d], .authorized tok)
        | .err400 code =>
          if code == "authorization_pending" then
            let next := pollSteps pollInterval expiresAt rest (t + d) pollInterval
            (d :: next.1, next.2)
          else if code == "slow_down" then
            let next := pollSteps pollInterval expiresAt rest (t + d) (pollInterval * 2)
            (d :: next.1, next.2)
          else if code == "access_denied" then ([d], .denied)
          else if code == "expired_token" then ([d], .expiredServer)
          else ([d], .protocolError code)
        | .netError =>
          let next := pollSteps pollInterval expiresAt rest (t + d) (min (pollInterval * 2) 30000)
          (d :: next.1, next.2)

/-- A concrete instantiation of the external facilities, used to
evaluate the development on closed inputs: the cipher encodes the
plaintext by character codes with a constant tag, and utf-8 decoding
maps codes back to characters. -/
def extTest : CryptoExt where
  hostname := "host"
  platform := "linux"
  arch := "x64"
  homedir := "/home/u"
  pbkdf2 := fun _ _ => List.replicate 32 7
  sha256 := fun _ => List.replicate 32 1
  encryptGCM := fun _ _ m => (m.data.map Char.toNat, List.replicate 16 0)
  decryptGCM := fun _ _ tag ct =>
    if tag = List.replicate 16 0 then some (String.mk (ct.map Char.ofNat)) else none
  decodeUtf8 := fun l => String.mk (l.map Char.ofNat)
  tagLength := by intro k iv m; simp
  decrypt_encrypt := by
    intro k iv m
    have h : Char.ofNat ∘ Char.toNat = id := funext Char.ofNat_toNat
    simp [List.map_map, h]

/-- A fixed 64-byte salt used in closed statements. -/
def salt64 : List Nat := List.replicate 64 2

/-- A fixed 16-byte iv used in closed statements. -/
def iv16 : List Nat := List.replicate 16 3

lemma lookupA_upsertA {α : Type} (l : List (String × α)) (k : String) (v : α) :
    lookupA (upsertA l k v) k = some v := by
  induction l with
  | nil => simp [upsertA, lookupA]
  | cons hd tl ih =>
    obtain ⟨k0, v0⟩ := hd
    by_cases h : k0 == k
    · simp [upsertA, h, lookupA]
    · simp [upsertA, h, lookupA, ih]

lemma blob_take64 (salt rest : List Nat) (hs : salt.length = 64) :
    (salt ++ rest).take 64 = salt := by
  rw [← hs]; exact List.take_left salt rest

lemma blob_drop64 (salt rest : List Nat) (hs : salt.length = 64) :
    (salt ++ rest).drop 64 = rest := by
  rw [← hs]; exact List.drop_left salt rest

lemma blob_drop80 (salt iv rest : List Nat) (hs : salt.length = 64) (hi : iv.length = 16) :
    (salt ++ (iv ++ rest)).drop 80 = rest := by
  have h1 : ((salt ++ (iv ++ rest)).drop 64).drop 16 = (salt ++ (iv ++ rest)).drop 80 := by
    simp [List.drop_drop]
  rw [← h1, blob_drop64 salt (iv ++ rest) hs, ← hi, List.drop_left]

lemma blob_drop96 (salt iv tag rest : List Nat)
    (hs : salt.length = 64) (hi : iv.length = 16) (ht : tag.length = 16) :
    (salt ++ (iv ++ (tag ++ rest))).drop 96 = rest := by
  have h1 : ((salt ++ (iv ++ (tag ++ rest))).drop 80).drop 16 =
      (salt ++ (iv ++ (tag ++ rest))).drop 96 := by
    simp [List.drop_drop]
  rw [← h1, blob_drop80 salt iv (tag ++ rest) hs hi, ← ht, List.drop_left]

/-- The decryption round trip of workspace.js on a well-formed blob:
decryptToken recovers the token from encryptToken output, for any
64-byte salt and 16-byte iv. -/
lemma decryptToken_encryptToken (e : CryptoExt) (salt iv : List Nat) (t : String)
    (hs : salt.length = 64) (hi : iv.length = 16) :
    Workspace.decryptToken e (Workspace.encryptToken e salt iv t) = .ok t := by
  unfold Workspace.encryptToken Workspace.decryptToken
  simp only [List.append_assoc]
  set tag := (e.encryptGCM (Workspace.getEncryptionKey e) iv t).2 with htagdef
  set ct := (e.encryptGCM (Workspace.getEncryptionKey e) iv t).1 with hctdef
  have ht : tag.length = 16 := e.tagLength _ _ _
  have hnotshort : ¬ ((salt ++ (iv ++ (tag ++ ct))).length < 64 + 16 + 16) := by
    simp [hs, hi, ht]
    omega
  simp only [hnotshort, if_false]
  have hiv : ((salt ++ (iv ++ (tag ++ ct))).drop 64).take 16 = iv := by
    rw [blob_drop64 salt (iv ++ (tag ++ ct)) hs, ← hi, List.take_left]
  have htg : ((salt ++ (iv ++ (tag ++ ct))).drop 80).take 16 = tag := by
    rw [blob_drop80 salt iv (tag ++ ct) hs hi, ← ht, List.take_left]
  have hct : (salt ++ (iv ++ (tag ++ ct))).drop 96 = ct :=
    blob_drop96 salt iv tag ct hs hi ht
  rw [hiv, htg, hct, hctdef, htagdef, e.decrypt_encrypt]

/-- Claim C10: decryption by the fallback store does not depend on the
per-blob salt.  The AES key is derived solely from host-identifying
material and a fixed application constant, so a blob obtained from
encryptToken with its 64-byte salt field replaced by any other 64-byte
value still decrypts to the original token, and the part of the blob
after the salt (iv, tag, ciphertext, all produced under the
host-derived key) is identical whichever salt was drawn for the
write. -/
theorem C10_decryption_salt_independent (e : CryptoExt) (salt iv s : List Nat) (t : String)
    (hs : salt.length = 64) (hi : iv.length = 16) (hs2 : s.length = 64) :
    Workspace.decryptToken e (s ++ (Workspace.encryptToken e salt iv t).drop 64) = .ok t
    ∧ (Workspace.encryptToken e salt iv t).drop 64 =
      (Workspace.encryptToken e s iv t).drop 64 := by
  have hdrop : ∀ (sl : List Nat), sl.length = 64 →
      (Workspace.encryptToken e sl iv t).drop 64 =
      iv ++ ((e.encryptGCM (Workspace.getEncryptionKey e) iv t).2 ++
        (e.encryptGCM (Workspace.getEncryptionKey e) iv t).1) := by
    intro sl hsl
    unfold Workspace.encryptToken
    simp only [List.append_assoc]
    exact blob_drop64 sl _ hsl
  constructor
  · have hrepl : s ++ (Workspace.encryptToken e salt iv t).drop 64 =
        Workspace.encryptToken e s iv t := by
      rw [hdrop salt hs]
      unfold Workspace.encryptToken
      simp [List.append_assoc]
    rw [hrepl]
    exact decryptToken_encryptToken e s iv t hs2 hi
  · rw [hdrop salt hs, hdrop s hs2]

/-- Claim C10 witness: the theorem applied at concrete inputs with the
concrete external facilities. -/
theorem C10_witness :
    (salt64.length = 64 ∧ iv16.length = 16 ∧ (List.replicate 64 9).length = 64)
    ∧ (Workspace.decryptToken extTest
         (List.replicate 64 9 ++ (Workspace.encryptToken extTest salt64 iv16 "R1").drop 64)
         = .ok "R1"
       ∧ (Workspace.encryptToken extTest salt64 iv16 "R1").drop 64 =
         (Workspace.encryptToken extTest (List.replicate 64 9) iv16 "R1").drop 64) :=
  ⟨⟨by decide, by decide, by decide⟩,
   C10_decryption_salt_independent extTest salt64 iv16 (List.replicate 64 9) "R1"
     (by decide) (by decide) (by decide)⟩

/-- Secrets-file state holding, for identity ws1, a stored blob whose
decoded length (3 bytes) is below the minimum header length. -/
def c1State : Workspace.VaultState := ⟨[], [("ws1", [65, 66, 67])]⟩

/-- Claim C1 counterexample: with a stored ciphertext shorter than the
minimum header length (96 bytes), retrieve returns none for that
identity rather than propagating the invalid-ciphertext error:
decryptToken does raise it, but getTokenFallback swallows every error
and getToken yields null. -/
theorem C1_counterexample :
    [65, 66, 67].length < 64 + 16 + 16
    ∧ Workspace.decryptToken extTest [65, 66, 67] = .error .invalidEncryptedData
    ∧ (Workspace.getToken .unavailable extTest salt64 iv16 c1State "ws1").1 = none :=
  ⟨by decide, rfl, by decide⟩

/-- Claim C1 (amended): for a stored ciphertext shorter than the
minimum header length, decryptToken raises the invalid-encrypted-data
error, but the retrieval path catches all errors after the failed
legacy probe, so retrieve returns none for that identity instead of
propagating the error. -/
theorem C1_short_ciphertext_swallowed (e : CryptoExt) (salt iv : List Nat)
    (st : Workspace.VaultState) (id : String) (blob : List Nat)
    (hlook : lookupA st.tokens id = some blob)
    (hshort : blob.length < 64 + 16 + 16)
    (hlegacy : Workspace.legacyTokenShape e blob = false) :
    Workspace.decryptToken e blob = .error .invalidEncryptedData
    ∧ (Workspace.getTokenFallback e salt iv st id).1 = none
    ∧ (Workspace.getToken .unavailable e salt iv st id).1 = none := by
  have hdec : Workspace.decryptToken e blob = .error .invalidEncryptedData := by
    unfold Workspace.decryptToken
    rw [if_pos hshort]
  have hfb : (Workspace.getTokenFallback e salt iv st id).1 = none := by
    unfold Workspace.getTokenFallback
    rw [hlook]
    by_cases hb : blob.isEmpty
    · simp [hb]
    · simp [hb, hdec, hlegacy]
  exact ⟨hdec, hfb, hfb⟩

/-- Claim C1 witness: the amended theorem applied at the concrete
corrupted store. -/
theorem C1_witness :
    (lookupA c1State.tokens "ws1" = some [65, 66, 67]
     ∧ [65, 66, 67].length < 64 + 16 + 16
     ∧ Workspace.legacyTokenShape extTest [65, 66, 67] = false)
    ∧ (Workspace.decryptToken extTest [65, 66, 67] = .error .invalidEncryptedData
       ∧ (Workspace.getTokenFallback extTest salt64 iv16 c1State "ws1").1 = none
       ∧ (Workspace.getToken .unavailable extTest salt64 iv16 c1State "ws1").1 = none) :=
  ⟨⟨by decide, by decide, by decide⟩,
   C1_short_ciphertext_swallowed extTest salt64 iv16 c1State "ws1" [65, 66, 67]
     (by decide) (by decide) (by decide)⟩

/-- Claim C2 counterexample: the round trip fails for the empty secret
on the native path.  keytar stores the empty string, but retrieval
treats a falsy keychain result as absent and falls through to the
(empty) fallback store, returning none instead of the stored secret. -/
theorem C2_counterexample :
    (Workspace.getToken .ok extTest salt64 iv16
       (Workspace.storeToken .ok extTest salt64 iv16 ⟨[], []⟩ "ws1" "") "ws1").1 = none ∧
    (Workspace.getToken .ok extTest salt64 iv16
       (Workspace.storeToken .ok extTest salt64 iv16 ⟨[], []⟩ "ws1" "") "ws1").1 ≠ some "" :=
  ⟨by decide, by decide⟩

/-- Claim C2 (amended): for every nonempty secret S, store followed by
retrieve returns exactly S on the same host, whether the keychain is
available, unavailable, or failing (the two latter exercising the
encrypted-file fallback). -/
theorem C2_roundtrip_nonempty (e : CryptoExt) (mode : KeytarMode)
    (salt iv salt2 iv2 : List Nat) (st : Workspace.VaultState) (id S : String)
    (hS : S ≠ "") (hs : salt.length = 64) (hi : iv.length = 16) :
    (Workspace.getToken mode e salt2 iv2
       (Workspace.storeToken mode e salt iv st id S) id).1 = some S := by
  have hfallback : (Workspace.getTokenFallback e salt2 iv2
      (Workspace.storeTokenFallback e salt iv st id S) id).1 = some S := by
    unfold Workspace.storeTokenFallback Workspace.getTokenFallback
    simp only
    rw [lookupA_upsertA]
    have hlen : (Workspace.encryptToken e salt iv S).length ≠ 0 := by
      unfold Workspace.encryptToken
      simp [hs]
    have hblob : (Workspace.encryptToken e salt iv S).isEmpty = false := by
      cases hcase : Workspace.encryptToken e salt iv S with
      | nil => exact absurd (by rw [hcase]; rfl) hlen
      | cons a l => rfl
    have hdec := decryptToken_encryptToken e salt iv S hs hi
    simp [hblob, hdec]
  cases mode with
  | ok =>
    unfold Workspace.storeToken Workspace.getToken
    simp only
    rw [lookupA_upsertA]
    have hne : (S == "") = false := by
      simp [hS]
    simp [hne]
  | unavailable =>
    unfold Workspace.storeToken Workspace.getToken
    exact hfallback
  | failing =>
    unfold Workspace.storeToken Workspace.getToken
    exact hfallback

/-- Claim C2 witness: the amended round trip applied at a concrete
secret on both the native and the fallback path. -/
theorem C2_witness :
    ("R1" ≠ "" ∧ salt64.length = 64 ∧ iv16.length = 16)
    ∧ (Workspace.getToken .ok extTest salt64 iv16
         (Workspace.storeToken .ok extTest salt64 iv16 ⟨[], []⟩ "ws1" "R1") "ws1").1 = some "R1"
    ∧ (Workspace.getToken .unavailable extTest salt64 iv16
         (Workspace.storeToken .unavailable extTest salt64 iv16 ⟨[], []⟩ "ws1" "R1") "ws1").1
        = some "R1" :=
  ⟨⟨by decide, by decide, by decide⟩,
   C2_roundtrip_nonempty extTest .ok salt64 iv16 salt64 iv16 ⟨[], []⟩ "ws1" "R1"
     (by decide) (by decide) (by decide),
   C2_roundtrip_nonempty extTest .unavailable salt64 iv16 salt64 iv16 ⟨[], []⟩ "ws1" "R1"
     (by decide) (by decide) (by decide)⟩

/-- Device store holding the refresh token R1 for device dev1. -/
def c3DeviceState : Device.DeviceState := ⟨[("dev1", "R1")], none⟩

/-- A refresh-exchange reply that does not rotate the refresh token. -/
def c3Reply : Except Nat RefreshResponse := .ok ⟨"A1", some "R1", some "Bearer", 900⟩

/-- Claim C3 counterexample: two 401-handling callers each invoke
handleTokenRefresh, and each invocation issues its own refresh-exchange
request.  The first succeeds and leaves the device store unchanged, so
the second caller runs from the same state and issues a second
exchange: two exchanges in total, not one — there is no single-flight
guard to coalesce them. -/
theorem C3_counterexample :
    (handleTokenRefresh .ok (some "dev1") c3DeviceState c3Reply 0).1
      = .ok ⟨"A1", 900000, c3DeviceState⟩
    ∧ (handleTokenRefresh .ok (some "dev1") c3DeviceState c3Reply 0).2
      + (handleTokenRefresh .ok (some "dev1") c3DeviceState c3Reply 0).2 = 2
    ∧ ¬ ((handleTokenRefresh .ok (some "dev1") c3DeviceState c3Reply 0).2
      + (handleTokenRefresh .ok (some "dev1") c3DeviceState c3Reply 0).2 = 1) :=
  ⟨rfl, by decide, by decide⟩

/-- Claim C3 (amended): handleTokenRefresh contains no single-flight
guard: every invocation that finds a (truthy) refresh token issues
exactly one refresh-exchange request of its own, so n concurrent
401 handlers issue n exchanges rather than sharing one. -/
theorem C3_no_coalescing (mode : KeytarMode) (did : String) (st : Device.DeviceState)
    (resp : Except Nat RefreshResponse) (now : Int) (rt : String)
    (h1 : Device.getToken mode st did = some rt) (h2 : rt ≠ "") :
    (handleTokenRefresh mode (some did) st resp now).2 = 1 := by
  have hne : (rt == "") = false := by simp [h2]
  simp only [handleTokenRefresh, h1, hne, Bool.false_eq_true, if_false]
  cases hra : refreshAccessToken rt resp with
  | error m => simp [hra]
  | ok tk =>
    cases hrot : (!(tk.refresh_token == "") && !(tk.refresh_token == rt)) with
    | true => simp [hra, hrot, importedStoreToken, Device.moduleExports]
    | false => simp [hra, hrot]

/-- Claim C3 witness: the amended theorem applied at the concrete
single-caller setup. -/
theorem C3_witness :
    (Device.getToken .ok c3DeviceState "dev1" = some "R1" ∧ "R1" ≠ "")
    ∧ (handleTokenRefresh .ok (some "dev1") c3DeviceState c3Reply 0).2 = 1 :=
  ⟨⟨by decide, by decide⟩,
   C3_no_coalescing .ok "dev1" c3DeviceState c3Reply 0 "R1" (by decide) (by decide)⟩

/-- Client cache holding an access token one minute from expiry. -/
def c4Cache : ClientCache := ⟨none, some "A", some 60000⟩

/-- Device store for the getAuthToken scenarios. -/
def c4Device : Device.DeviceState := ⟨[("dev1", "R1")], none⟩

/-- Claim C4 counterexample: at time 0 the cached access token expires
at 60000 ms — only one minute away, well inside the claimed five-minute
guard band — yet getAuthToken returns the cached token.  And with no
cached token at all it returns the refresh token read from storage: no
refresh exchange is performed on any path of getAuthToken. -/
theorem C4_counterexample :
    getAuthToken c4Cache .ok (some "dev1") c4Device 0 = some "A"
    ∧ (60000 : Int) - 0 ≤ 5 * 60 * 1000
    ∧ getAuthToken ⟨none, none, none⟩ .ok (some "dev1") c4Device 0 = some "R1" :=
  ⟨by decide, by decide, by decide⟩

/-- Claim C4 (amended): for a client without a constructor token,
getAuthToken returns the cached access token whenever it is truthy and
its expiry is strictly later than now — with no five-minute margin —
and in every other case returns the refresh token read from device
storage (or none without a device id), never performing a refresh
exchange itself. -/
theorem C4_getAuthToken_no_margin (c : ClientCache) (mode : KeytarMode) (did : String)
    (st : Device.DeviceState) (now : Int) (hc : c.token = none) :
    ((strTruthy c.accessToken && expiryValid c.accessTokenExpiry now) = true →
       getAuthToken c mode (some did) st now = c.accessToken)
    ∧ ((strTruthy c.accessToken && expiryValid c.accessTokenExpiry now) = false →
       getAuthToken c mode (some did) st now = Device.getToken mode st did)
    ∧ getAuthToken c mode none st now = none := by
  have h0 : strTruthy c.token = false := by rw [hc]; rfl
  refine ⟨fun h => ?_, fun h => ?_, ?_⟩
  · unfold getAuthToken; rw [h0]; simp [h]
  · unfold getAuthToken; rw [h0]; simp [h]
  · unfold getAuthToken; rw [h0]; simp

/-- Claim C4 witness: the amended theorem applied at the concrete
nearly-expired cache. -/
theorem C4_witness :
    c4Cache.token = none
    ∧ (((strTruthy c4Cache.accessToken && expiryValid c4Cache.accessTokenExpiry 0) = true →
          getAuthToken c4Cache .ok (some "dev1") c4Device 0 = c4Cache.accessToken)
       ∧ ((strTruthy c4Cache.accessToken && expiryValid c4Cache.accessTokenExpiry 0) = false →
          getAuthToken c4Cache .ok (some "dev1") c4Device 0 = Device.getToken .ok c4Device "dev1")
       ∧ getAuthToken c4Cache .ok none c4Device 0 = none) :=
  ⟨rfl, C4_getAuthToken_no_margin c4Cache .ok "dev1" c4Device 0 rfl⟩

/-- Claim C5 counterexample: a protected request that receives 401,
refreshes successfully and is replayed, then receives 401 again, is
rejected with the replay's original 401 error — not with the
authentication-expired error the claim requires (the interceptor
returns the replay promise without await, so its rejection bypasses
the catch that raises that error). -/
theorem C5_counterexample :
    runRequest true [.err 401, .err 401] = (.rawErr (.err 401), 2)
    ∧ runRequest true [.err 401, .err 401] ≠ (.authExpired, 2) :=
  ⟨by decide, by decide⟩

/-- Claim C5 (amended): on a first 401 the client performs exactly one
coordinated refresh and replays the request exactly once; if the
refresh fails the authentication-expired error is raised; if the
replayed request fails again, its own error propagates unchanged (it is
not converted to the authentication-expired error); in every case at
most two attempts are made, so no further automatic retry occurs. -/
theorem C5_single_401_retry (ro : Bool) (script : List HttpResp) :
    (∀ rest : List HttpResp, runRequest false (.err 401 :: rest) = (.authExpired, 1))
    ∧ (∀ (d : String) (rest : List HttpResp),
        runRequest true (.err 401 :: .ok d :: rest) = (.ok d, 2))
    ∧ (∀ (s : Nat) (rest : List HttpResp),
        runRequest true (.err 401 :: .err s :: rest) = (.rawErr (.err s), 2))
    ∧ (∀ (code : String) (rest : List HttpResp),
        runRequest true (.err 401 :: .netErr code :: rest) = (.rawErr (.netErr code), 2))
    ∧ (runRequest ro script).2 ≤ 2 := by
  refine ⟨fun rest => by simp [runRequest, respStatus],
          fun d rest => by simp [runRequest, respStatus],
          fun s rest => by simp [runRequest, respStatus],
          fun code rest => by simp [runRequest, respStatus], ?_⟩
  match script with
  | [] => simp [runRequest]
  | .ok d :: rest => simp [runRequest]
  | .err s :: rest =>
    by_cases h : s = 401
    · subst h
      cases ro with
      | false => simp [runRequest, respStatus]
      | true =>
        match rest with
        | [] => simp [runRequest, respStatus]
        | .ok d :: rest2 => simp [runRequest, respStatus]
        | .err s2 :: rest2 => simp [runRequest, respStatus]
        | .netErr c2 :: rest2 => simp [runRequest, respStatus]
    · have hne : respStatus (.err s) ≠ some 401 := by simp [respStatus, h]
      simp [runRequest, hne]
  | .netErr c :: rest =>
    have hne : respStatus (.netErr c) ≠ some 401 := by simp [respStatus]
    simp [runRequest, hne]

/-- Claim C5 witness: the amended theorem applied at concrete scripts
(refresh failure; successful replay after refresh). -/
theorem C5_witness :
    runRequest false [HttpResp.err 401] = (.authExpired, 1)
    ∧ runRequest true [HttpResp.err 401, HttpResp.ok "d"] = (.ok "d", 2) :=
  ⟨(C5_single_401_retry false [HttpResp.err 401]).1 [],
   (C5_single_401_retry true [HttpResp.err 401, HttpResp.ok "d"]).2.1 "d" []⟩

/-- Claim C6 counterexample: a request whose transport would answer
503, 503, then success is rejected with the first 503 after a single
attempt — the response interceptor contains no transient-failure retry,
so the claimed success on attempt 3 never happens. -/
theorem C6_counterexample :
    runRequest true [.err 503, .err 503, .ok "payload"] = (.rawErr (.err 503), 1)
    ∧ runRequest true [.err 503, .err 503, .ok "payload"] ≠ (.ok "payload", 3) :=
  ⟨by decide, by decide⟩

/-- Claim C6 (amended): the client performs no automatic retry on
transient failures: any non-401 HTTP error and any network error
(timeout, DNS) is rejected immediately with the original error object —
status and message intact — after exactly one attempt.  Only the single
401-refresh-replay path exists. -/
theorem C6_no_transient_retry (ro : Bool) (rest : List HttpResp) :
    (∀ s : Nat, s ≠ 401 → runRequest ro (.err s :: rest) = (.rawErr (.err s), 1))
    ∧ (∀ code : String, runRequest ro (.netErr code :: rest) = (.rawErr (.netErr code), 1)) := by
  constructor
  · intro s hs
    have hne : respStatus (.err s) ≠ some 401 := by simp [respStatus, hs]
    simp [runRequest, hne]
  · intro code
    have hne : respStatus (.netErr code) ≠ some 401 := by simp [respStatus]
    simp [runRequest, hne]

/-- Claim C6 witness: the amended theorem applied to a 503 with further
responses scripted that are never consumed. -/
theorem C6_witness :
    (503 : Nat) ≠ 401
    ∧ runRequest true [HttpResp.err 503, HttpResp.ok "payload"] = (.rawErr (.err 503), 1) :=
  ⟨by decide, (C6_no_transient_retry true [HttpResp.ok "payload"]).1 503 (by decide)⟩

/-- Claim C7: the code is defective here.  api-client.js destructures
storeToken from the device module, but device.js exports the write
operation as setToken, so the imported binding is undefined; when the
refresh exchange returns a rotated refresh token, handleTokenRefresh
calls that undefined binding and fails with a TypeError instead of
persisting the new token — the store still holds the old token
afterwards.  The repository test suite itself calls
deviceUtils.storeToken, confirming the export mismatch is a slip. -/
theorem C7_rotation_hits_undefined_import :
    importedStoreToken = none
    ∧ handleTokenRefresh .ok (some "dev1") c3DeviceState
        (.ok ⟨"A1", some "R2", some "Bearer", 900⟩) 0
      = (.error .storeTokenNotAFunction, 1)
    ∧ Device.getToken .ok c3DeviceState "dev1" = some "R1" :=
  ⟨by decide, rfl, by decide⟩

/-- Scripted poll replies: pending, slow_down, pending, then success. -/
def c8Script : List PollResp :=
  [.err400 "authorization_pending", .err400 "slow_down",
   .err400 "authorization_pending", .success "A1"]

/-- Claim C8 counterexample: with base interval 1000 ms, the delays at
which polls are scheduled against the script pending, slow_down,
pending, success are 1000, 1000, 2000, 1000.  The poll scheduled after
the authorization_pending that follows the slow_down uses 1000 ms — the
base interval again, not at least twice the 1000 ms in force before the
slow_down: the doubling is not monotone and is effectively reset. -/
theorem C8_counterexample :
    (pollSteps 1000 1000000 c8Script 0 1000).1 = [1000, 1000, 2000, 1000]
    ∧ (pollSteps 1000 1000000 c8Script 0 1000).2 = .authorized "A1"
    ∧ ¬ (2 * 1000 ≤ 1000) :=
  ⟨by decide, by decide, by decide⟩

/-- Claim C8 (amended): after a slow_down response only the immediately
next poll is scheduled at twice the base interval; the interval
variable is never updated, so the poll scheduled after a subsequent
authorization_pending response reverts to the base interval. -/
theorem C8_slow_down_not_sticky (pi ea t d : Nat) (rest : List PollResp)
    (h1 : ¬ (ea < t + d)) (h2 : ¬ (ea < t + d + pi * 2)) :
    pollSteps pi ea (.err400 "slow_down" :: .err400 "authorization_pending" :: rest) t d
      = (d :: pi * 2 :: (pollSteps pi ea rest (t + d + pi * 2) pi).1,
         (pollSteps pi ea rest (t + d + pi * 2) pi).2) := by
  simp [pollSteps, h1, h2]

/-- Claim C8 witness: the amended theorem applied at the base interval
1000 ms with a large deadline. -/
theorem C8_witness :
    (¬ ((1000000 : Nat) < 0 + 1000) ∧ ¬ ((1000000 : Nat) < 0 + 1000 + 1000 * 2))
    ∧ pollSteps 1000 1000000
        (.err400 "slow_down" :: .err400 "authorization_pending" :: []) 0 1000
      = (1000 :: 1000 * 2 :: (pollSteps 1000 1000000 [] (0 + 1000 + 1000 * 2) 1000).1,
         (pollSteps 1000 1000000 [] (0 + 1000 + 1000 * 2) 1000).2) :=
  ⟨⟨by decide, by decide⟩,
   C8_slow_down_not_sticky 1000 1000000 0 1000 [] (by decide) (by decide)⟩

/-- Claim C9 counterexample: when the keychain is unavailable, the
legacy device-token path persists the record deviceId, token to the
.token file with the secret itself as the token field — plaintext, not
an AES-256-GCM blob. -/
theorem C9_counterexample :
    (Device.setToken .unavailable ⟨[], none⟩ "dev1" "SECRET").tokenFile
      = some ("dev1", "SECRET") := rfl

/-- Claim C9 (amended): the Credential Vault of workspace.js never
persists plaintext: on the fallback paths (keychain unavailable or
failing) the value stored in the secrets file for the identity is
exactly the AES-256-GCM blob salt, iv, authTag, ciphertext, which
decrypts back to the secret under the host key, and the native path
writes nothing to the secrets file at all; however the legacy device
token path of device.js persists the token itself in plaintext JSON
whenever the keychain is unavailable or failing. -/
theorem C9_vault_encrypts_legacy_plaintext (e : CryptoExt) (mode : KeytarMode)
    (salt iv : List Nat) (st : Workspace.VaultState) (id S : String)
    (hs : salt.length = 64) (hi : iv.length = 16) :
    ((mode = .unavailable ∨ mode = .failing) →
       lookupA (Workspace.storeToken mode e salt iv st id S).tokens id
         = some (Workspace.encryptToken e salt iv S)
       ∧ Workspace.decryptToken e (Workspace.encryptToken e salt iv S) = .ok S)
    ∧ (Workspace.storeToken .ok e salt iv st id S).tokens = st.tokens
    ∧ (∀ (dst : Device.DeviceState) (did : String),
        (Device.setToken .unavailable dst did S).tokenFile = some (did, S)
        ∧ (Device.setToken .failing dst did S).tokenFile = some (did, S)) := by
  refine ⟨?_, rfl, fun dst did => ⟨rfl, rfl⟩⟩
  rintro (rfl | rfl) <;>
    exact ⟨by simp [Workspace.storeToken, Workspace.storeTokenFallback, lookupA_upsertA],
           decryptToken_encryptToken e salt iv S hs hi⟩

/-- Claim C9 witness: the amended theorem applied at a concrete secret
with the keychain unavailable. -/
theorem C9_witness :
    (salt64.length = 64 ∧ iv16.length = 16)
    ∧ (((KeytarMode.unavailable = .unavailable ∨ KeytarMode.unavailable = .failing) →
          lookupA (Workspace.storeToken .unavailable extTest salt64 iv16 ⟨[], []⟩
              "ws1" "SECRET").tokens "ws1"
            = some (Workspace.encryptToken extTest salt64 iv16 "SECRET")
          ∧ Workspace.decryptToken extTest (Workspace.encryptToken extTest salt64 iv16 "SECRET")
            = .ok "SECRET")
       ∧ (Workspace.storeToken .ok extTest salt64 iv16 ⟨[], []⟩ "ws1" "SECRET").tokens
           = (⟨[], []⟩ : Workspace.VaultState).tokens
       ∧ (∀ (dst : Device.DeviceState) (did : String),
           (Device.setToken .unavailable dst did "SECRET").tokenFile = some (did, "SECRET")
           ∧ (Device.setToken .failing dst did "SECRET").tokenFile = some (did, "SECRET"))) :=
  ⟨⟨by decide, by decide⟩,
   C9_vault_encrypts_legacy_plaintext extTest .unavailable salt64 iv16 ⟨[], []⟩ "ws1" "SECRET"
     (by decide) (by decide)⟩
